import Mathlib

/-
A shallow embedding of the credential-lifecycle manager and the
dual-transport delivery client of the twitch_chatbot repository
(src/twitch/oauth.rs, src/twitch/client.rs, src/twitch/helix.rs),
together with theorems checking the specification's claims against it.

Modelling conventions:
  * machine time (std::time::Instant) is a Nat counting seconds;
  * HTTP traffic is an oracle: each function takes the response(s) the
    network would produce, `none` standing for a transport-level failure
    of reqwest's send();
  * `response.json::<T>()` is modelled by an Option-typed view of the
    response carrying the parse result of its body;
  * anyhow errors are the formatted strings the source builds.
-/

/-- Does the character list `needle` occur at the head of `hay`?
Building block for Rust's substring test `str::contains`. -/
def charsMatchAt : List Char → List Char → Bool
  | [], _ => true
  | _ :: _, [] => false
  | n :: ns, h :: hs => n == h && charsMatchAt ns hs

/-- Does `needle` occur as a contiguous substring of `hay`? -/
def charsHaveSub (needle : List Char) : List Char → Bool
  | [] => charsMatchAt needle []
  | c :: rest => charsMatchAt needle (c :: rest) || charsHaveSub needle rest

/-- Rust `hay.contains(needle)`: substring test on strings. -/
def strContains (hay needle : String) : Bool :=
  charsHaveSub needle.data hay.data

/-- reqwest `StatusCode::is_success`: status in 200..=299. -/
def isSuccessStatus (status : Nat) : Bool :=
  decide (200 ≤ status ∧ status < 300)

/-- The token payload of oauth.rs (struct TokenResponse): access token,
lifetime in seconds, refresh token, granted scopes, token type. -/
structure TokenResponse where
  access_token : String
  expires_in : Nat
  refresh_token : String
  scope : List String
  token_type : String
deriving DecidableEq, Repr

/-- An HTTP response as the OAuth code observes it: numeric status, raw
body text (for `.text()`), and the result of parsing the body as a
TokenResponse (for `.json::<TokenResponse>()`; `none` = parse failure). -/
structure HttpResponse where
  status : Nat
  text : String
  jsonToken : Option TokenResponse
deriving DecidableEq, Repr

/-- The mutable state of oauth.rs's OAuthManager: the held token, if any,
and the Instant at which it was obtained. -/
structure OAuthState where
  token : Option TokenResponse
  token_obtained_at : Option Nat
deriving DecidableEq, Repr

/-- OAuthManager::is_authenticated — true iff a token is held. -/
def is_authenticated (st : OAuthState) : Bool :=
  st.token.isSome

/-- OAuthManager::refresh_token. `resp` is the response of the refresh
POST (`none` = send() failed). Returns the Result together with the
post-call manager state: on any failure the state is returned as-is,
mirroring that the Rust code only assigns `self.token` after success. -/
def refresh_token (st : OAuthState) (resp : Option HttpResponse) (now : Nat) :
    Except String Unit × OAuthState :=
  match st.token with
  | none => (.error "No refresh token available", st)
  | some _ =>
    match resp with
    | none => (.error "transport error", st)
    | some r =>
      if isSuccessStatus r.status then
        match r.jsonToken with
        | some newTok =>
          (.ok (), { st with token := some newTok, token_obtained_at := some now })
        | none => (.error "invalid token json", st)
      else (.error ("Failed to refresh token: " ++ r.text), st)

/-- OAuthManager::get_access_token. If a token and its acquisition time
are held and the elapsed time exceeds `expires_in` minus 600 seconds
(Nat subtraction = Rust's saturating_sub), refresh first (propagating a
refresh failure); then return the held access token. With no token the
call fails with "Not authenticated". -/
def get_access_token (st : OAuthState) (resp : Option HttpResponse) (now : Nat) :
    Except String String × OAuthState :=
  match st.token, st.token_obtained_at with
  | some tok, some t0 =>
    let elapsed := now - t0
    if elapsed > tok.expires_in - 600 then
      match refresh_token st resp now with
      | (.ok _, st2) =>
        match st2.token with
        | some tok2 => (.ok tok2.access_token, st2)
        | none => (.error "Not authenticated", st2)
      | (.error e, st2) => (.error e, st2)
    else (.ok tok.access_token, st)
  | _, _ => (.error "Not authenticated", st)

/-- Claim C1, counterexample. A held token with `expires_in` = 300 s
obtained at time 0 is, at time 0, within 10 minutes of expiry
(obtained_at + expires_in = 300 < 600 = now + 600), yet
`get_access_token` returns it unchanged and performs no refresh (the
refresh oracle is `none`, so any refresh attempt would have errored):
the saturating 10-minute margin collapses to 0 for short-lived tokens,
so the claimed invariant fails. -/
theorem c1_counterexample :
    get_access_token ⟨some ⟨"shortTok", 300, "r", [], "bearer"⟩, some 0⟩ none 0 =
      (.ok "shortTok", ⟨some ⟨"shortTok", 300, "r", [], "bearer"⟩, some 0⟩) ∧
    0 + 300 < 0 + 600 := by
  exact ⟨rfl, by decide⟩

/-- Claim C1, amended: provided the held token and any token delivered by
the refresh oracle have `expires_in` ≥ 600 s, `get_access_token` never
returns a token whose `obtained_at + expires_in` is less than 600 s
after `now`; it leaves the state untouched when the elapsed time is
within `expires_in − 600`, and otherwise returns only the post-refresh
token, freshly stamped with `obtained_at = now`. (Tokens with
`expires_in` < 600 escape the margin, see the counterexample.) -/
theorem c1_get_access_token_margin
    (st : OAuthState) (tok : TokenResponse) (t0 now : Nat) (resp : Option HttpResponse)
    (htok : st.token = some tok) (ht0 : st.token_obtained_at = some t0)
    (hle : t0 ≤ now) (hexp : 600 ≤ tok.expires_in)
    (hresp : ∀ r newTok, resp = some r → r.jsonToken = some newTok →
      600 ≤ newTok.expires_in)
    (s : String) (st2 : OAuthState)
    (h : get_access_token st resp now = (.ok s, st2)) :
    ∃ tok2 t2, st2.token = some tok2 ∧ st2.token_obtained_at = some t2 ∧
      s = tok2.access_token ∧ now + 600 ≤ t2 + tok2.expires_in ∧
      (now - t0 ≤ tok.expires_in - 600 → st2 = st) ∧
      (tok.expires_in - 600 < now - t0 →
        ∃ r, resp = some r ∧ r.jsonToken = some tok2 ∧ t2 = now) := by
  obtain ⟨stT, stO⟩ := st
  simp only at htok ht0
  subst htok ht0
  by_cases hc : now - t0 > tok.expires_in - 600
  · -- stale: the refresh path is taken
    rcases resp with _ | r
    · simp [get_access_token, refresh_token, hc] at h
    · by_cases hs : isSuccessStatus r.status
      · rcases hr : r.jsonToken with _ | newTok
        · simp [get_access_token, refresh_token, hc, hs, hr] at h
        · simp [get_access_token, refresh_token, hc, hs, hr] at h
          obtain ⟨hs1, hs2⟩ := h
          refine ⟨newTok, now, ?_, ?_, ?_, ?_, ?_, ?_⟩
          · rw [← hs2]
          · rw [← hs2]
          · exact hs1.symm
          · have := hresp r newTok rfl hr
            omega
          · intro hfresh; omega
          · intro _; exact ⟨r, rfl, hr, rfl⟩
      · simp [get_access_token, refresh_token, hc, hs] at h
  · -- fresh: the token is returned unchanged
    simp [get_access_token, hc] at h
    obtain ⟨hs1, hs2⟩ := h
    refine ⟨tok, t0, ?_, ?_, hs1.symm, ?_, ?_, ?_⟩
    · rw [← hs2]
    · rw [← hs2]
    · omega
    · intro _; exact hs2.symm
    · intro hst; omega

/-- Claim C1, witness: a token obtained at time 0 with a one-hour
lifetime, queried at t = 3500 s (inside the 10-minute margin), is
refreshed and the fresh token is returned, stamped obtained_at = 3500. -/
theorem c1_get_access_token_margin_witness :
    ∃ tok2 t2,
      (OAuthState.mk (some ⟨"new", 3600, "r2", [], "bearer"⟩) (some 3500)).token = some tok2 ∧
      (OAuthState.mk (some ⟨"new", 3600, "r2", [], "bearer"⟩) (some 3500)).token_obtained_at = some t2 ∧
      "new" = tok2.access_token ∧ 3500 + 600 ≤ t2 + tok2.expires_in ∧
      (3500 - 0 ≤ (3600 : Nat) - 600 →
        (OAuthState.mk (some ⟨"new", 3600, "r2", [], "bearer"⟩) (some 3500)) =
          ⟨some ⟨"old", 3600, "r", [], "bearer"⟩, some 0⟩) ∧
      ((3600 : Nat) - 600 < 3500 - 0 →
        ∃ r, (some (HttpResponse.mk 200 "" (some ⟨"new", 3600, "r2", [], "bearer"⟩)) : Option HttpResponse) = some r ∧
          r.jsonToken = some tok2 ∧ t2 = 3500) := by
  refine c1_get_access_token_margin
    ⟨some ⟨"old", 3600, "r", [], "bearer"⟩, some 0⟩ ⟨"old", 3600, "r", [], "bearer"⟩
    0 3500 (some ⟨200, "", some ⟨"new", 3600, "r2", [], "bearer"⟩⟩)
    rfl rfl (by decide) (by decide) ?_ "new"
    ⟨some ⟨"new", 3600, "r2", [], "bearer"⟩, some 3500⟩ rfl
  intro r newTok hr hn
  injection hr with hr
  subst hr
  simp only at hn
  injection hn with hn
  subst hn
  decide

/-- Claim C3, counterexample. A failed refresh (status 400) leaves the
previously held Credential in place: the post-call state equals the
pre-call state and `is_authenticated` still returns true, contradicting
the claim that no Credential is held after a failed refresh. -/
theorem c3_counterexample :
    (refresh_token ⟨some ⟨"a", 3600, "r", [], "bearer"⟩, some 5⟩
        (some ⟨400, "invalid refresh token", none⟩) 7) =
      (.error "Failed to refresh token: invalid refresh token",
        ⟨some ⟨"a", 3600, "r", [], "bearer"⟩, some 5⟩) ∧
    is_authenticated (refresh_token ⟨some ⟨"a", 3600, "r", [], "bearer"⟩, some 5⟩
        (some ⟨400, "invalid refresh token", none⟩) 7).2 = true := by
  exact ⟨rfl, rfl⟩

/-- Claim C3, amended: a refresh that fails (non-success HTTP status, or
a transport failure) surfaces an error but leaves the manager state
unchanged — the previous Credential is still held, so is_authenticated
remains true; callers are not forced back through authenticate(). -/
theorem c3_refresh_failure_state_unchanged
    (st : OAuthState) (tok : TokenResponse) (now : Nat)
    (htok : st.token = some tok) :
    (∀ r : HttpResponse, isSuccessStatus r.status = false →
      refresh_token st (some r) now =
        (.error ("Failed to refresh token: " ++ r.text), st)) ∧
    refresh_token st none now = (.error "transport error", st) ∧
    is_authenticated st = true := by
  refine ⟨?_, ?_, ?_⟩
  · intro r hfail
    simp [refresh_token, htok, hfail]
  · simp [refresh_token, htok]
  · simp [is_authenticated, htok]

/-- Claim C3, witness: the amended statement at a concrete held token,
with a concrete 503 refresh response. -/
theorem c3_refresh_failure_state_unchanged_witness :
    (∀ r : HttpResponse, isSuccessStatus r.status = false →
      refresh_token ⟨some ⟨"tok", 3600, "ref", ["chat"], "bearer"⟩, some 11⟩ (some r) 42 =
        (.error ("Failed to refresh token: " ++ r.text),
          ⟨some ⟨"tok", 3600, "ref", ["chat"], "bearer"⟩, some 11⟩)) ∧
    refresh_token ⟨some ⟨"tok", 3600, "ref", ["chat"], "bearer"⟩, some 11⟩ none 42 =
      (.error "transport error", ⟨some ⟨"tok", 3600, "ref", ["chat"], "bearer"⟩, some 11⟩) ∧
    is_authenticated ⟨some ⟨"tok", 3600, "ref", ["chat"], "bearer"⟩, some 11⟩ = true :=
  c3_refresh_failure_state_unchanged
    ⟨some ⟨"tok", 3600, "ref", ["chat"], "bearer"⟩, some 11⟩
    ⟨"tok", 3600, "ref", ["chat"], "bearer"⟩ 42 rfl

/-- The fragment of JSON used by the persisted token file: strings,
numbers, arrays and objects. serde_json's to_string_pretty/from_str pair
is modelled at the JSON-value level: save produces a Json value, load
consumes one. -/
inductive Json where
  | str (s : String)
  | num (n : Nat)
  | arr (xs : List Json)
  | obj (fields : List (String × Json))

/-- Field lookup in a JSON object (first match). -/
def jsonLookup : List (String × Json) → String → Option Json
  | [], _ => none
  | (k, v) :: rest, key => if k == key then some v else jsonLookup rest key

/-- Expect a JSON string. -/
def asStr : Json → Option String
  | .str s => some s
  | _ => none

/-- Expect a JSON number. -/
def asNum : Json → Option Nat
  | .num n => some n
  | _ => none

/-- Expect every element to be a JSON string. -/
def asStrList : List Json → Option (List String)
  | [] => some []
  | j :: js =>
    match asStr j, asStrList js with
    | some s, some ss => some (s :: ss)
    | _, _ => none

/-- Serialization of TokenResponse, as serde derives it: an object with
the five fields access_token, expires_in, refresh_token, scope,
token_type. -/
def token_to_json (t : TokenResponse) : Json :=
  .obj [("access_token", .str t.access_token),
        ("expires_in", .num t.expires_in),
        ("refresh_token", .str t.refresh_token),
        ("scope", .arr (t.scope.map Json.str)),
        ("token_type", .str t.token_type)]

/-- Deserialization of TokenResponse, as serde derives it: each field
must be present with the right type; extra fields are ignored. -/
def token_from_json (j : Json) : Option TokenResponse :=
  match j with
  | .obj fields => do
    let a ← (jsonLookup fields "access_token").bind asStr
    let e ← (jsonLookup fields "expires_in").bind asNum
    let r ← (jsonLookup fields "refresh_token").bind asStr
    let sc ← (jsonLookup fields "scope").bind fun x =>
      match x with
      | .arr xs => asStrList xs
      | _ => none
    let ty ← (jsonLookup fields "token_type").bind asStr
    pure ⟨a, e, r, sc, ty⟩
  | _ => none

/-- OAuthManager::save_token — serializes the held token; fails with
"No token to save" when none is held. -/
def save_token (st : OAuthState) : Except String Json :=
  match st.token with
  | some tok => .ok (token_to_json tok)
  | none => .error "No token to save"

/-- OAuthManager::load_token — `content` is the file's JSON (`none` =
the read itself failed). On a successful parse the parsed token is
installed and `token_obtained_at` is set to the time of the load. -/
def load_token (content : Option Json) (st : OAuthState) (now : Nat) :
    Except String Unit × OAuthState :=
  match content with
  | none => (.error "failed to read token file", st)
  | some j =>
    match token_from_json j with
    | none => (.error "corrupt token file", st)
    | some tok =>
      (.ok (), { st with token := some tok, token_obtained_at := some now })

/-- A mapped list of string atoms deserializes back to the same list. -/
lemma asStrList_map_str (l : List String) : asStrList (l.map Json.str) = some l := by
  induction l with
  | nil => rfl
  | cons s l ih => simp [asStrList, asStr, ih]

/-- Serialization round trip at the level of token values. -/
lemma token_from_to (tok : TokenResponse) :
    token_from_json (token_to_json tok) = some tok := by
  simp [token_from_json, token_to_json, jsonLookup, asStr, asNum, asStrList_map_str,
    Option.bind]

/-- The response of the device code request (oauth.rs struct
DeviceCodeResponse): the code to poll with, its validity window and the
polling interval in seconds, plus the user-facing code and URL. -/
structure DeviceCodeResponse where
  device_code : String
  expires_in : Nat
  interval : Nat
  user_code : String
  verification_uri : String
deriving DecidableEq, Repr

/-- The polling loop of OAuthManager::poll_for_token. `elapsed` is
`start_time.elapsed()`, advanced by `interval` at each
authorization_pending sleep; `resps` are the token-endpoint responses in
arrival order. Returns the loop's outcome — the token and the elapsed
time at which it arrived, or the error — together with the list of
elapsed times at which the HTTP calls were made. -/
def poll_loop (expiry interval : Nat) : Nat → List HttpResponse →
    Except String (TokenResponse × Nat) × List Nat
  | elapsed, resps =>
    if elapsed < expiry then
      match resps with
      | [] => (.error "transport error", [])
      | r :: rest =>
        if isSuccessStatus r.status then
          match r.jsonToken with
          | some tok => (.ok (tok, elapsed), [elapsed])
          | none => (.error "invalid token json", [elapsed])
        else if strContains r.text "authorization_pending" then
          let out := poll_loop expiry interval (elapsed + interval) rest
          (out.1, elapsed :: out.2)
        else (.error ("Error polling for token: " ++ r.text), [elapsed])
    else (.error "Device code flow timed out", [])

/-- OAuthManager::poll_for_token — runs the loop with the device code's
expiry and interval; on success stores the token and stamps
`token_obtained_at` with the success time. -/
def poll_for_token (st : OAuthState) (dc : DeviceCodeResponse) (start : Nat)
    (resps : List HttpResponse) : (Except String Unit × OAuthState) × List Nat :=
  let out := poll_loop dc.expires_in dc.interval 0 resps
  match out.1 with
  | .ok (tok, t) =>
    ((.ok (), { st with token := some tok, token_obtained_at := some (start + t) }),
      out.2)
  | .error e => ((.error e, st), out.2)

/-- Arithmetic shape of the call-time list produced by a pending run. -/
lemma range_map_arith (e i n : Nat) :
    (List.range (n + 1)).map (fun k => e + k * i) =
      e :: (List.range n).map (fun k => (e + i) + k * i) := by
  rw [List.range_succ_eq_map, List.map_cons, List.map_map]
  simp only [Nat.zero_mul, Nat.add_zero, List.cons.injEq, true_and]
  apply List.map_congr_left
  intro k _
  simp only [Function.comp_apply, Nat.succ_mul]
  omega

/-- A run of authorization_pending responses is consumed one per
interval, each in its own HTTP call, as long as the validity window is
still open when the run ends. -/
lemma poll_loop_pending_seq (expiry interval : Nat) (ps : List HttpResponse) :
    (∀ p ∈ ps, isSuccessStatus p.status = false ∧
      strContains p.text "authorization_pending" = true) →
    ∀ (e : Nat) (rest : List HttpResponse), e + ps.length * interval < expiry →
    poll_loop expiry interval e (ps ++ rest) =
      ((poll_loop expiry interval (e + ps.length * interval) rest).1,
       (List.range ps.length).map (fun k => e + k * interval) ++
         (poll_loop expiry interval (e + ps.length * interval) rest).2) := by
  induction ps with
  | nil =>
    intro _ e rest _
    simp
  | cons p ps ih =>
    intro hps e rest h
    have hp := hps p (List.mem_cons_self p ps)
    have htail : ∀ q ∈ ps, isSuccessStatus q.status = false ∧
        strContains q.text "authorization_pending" = true :=
      fun q hq => hps q (List.mem_cons_of_mem p hq)
    rw [List.length_cons, Nat.succ_mul] at h
    have he : e < expiry := by omega
    have harg : e + (ps.length + 1) * interval = (e + interval) + ps.length * interval := by
      rw [Nat.succ_mul]; omega
    have h2 : (e + interval) + ps.length * interval < expiry := by omega
    rw [List.cons_append]
    rw [show poll_loop expiry interval e (p :: (ps ++ rest)) =
        ((poll_loop expiry interval (e + interval) (ps ++ rest)).1,
         e :: (poll_loop expiry interval (e + interval) (ps ++ rest)).2) by
      simp [poll_loop, he, hp.1, hp.2]]
    rw [ih htail (e + interval) rest h2]
    simp only [List.length_cons, harg, range_map_arith, List.cons_append]

/-- If every response is authorization_pending and the validity window
elapses before the run ends, the loop yields the timed-out error. -/
lemma poll_loop_timeout (expiry interval : Nat) (qs : List HttpResponse) :
    (∀ q ∈ qs, isSuccessStatus q.status = false ∧
      strContains q.text "authorization_pending" = true) →
    ∀ e : Nat, expiry ≤ e + qs.length * interval →
    (poll_loop expiry interval e qs).1 = .error "Device code flow timed out" := by
  induction qs with
  | nil =>
    intro _ e h
    simp only [List.length_nil, Nat.zero_mul, Nat.add_zero] at h
    simp [poll_loop, Nat.not_lt.mpr h]
  | cons q qs ih =>
    intro hqs e h
    rw [List.length_cons, Nat.succ_mul] at h
    have htail : ∀ p ∈ qs, isSuccessStatus p.status = false ∧
        strContains p.text "authorization_pending" = true :=
      fun p hp => hqs p (List.mem_cons_of_mem q hp)
    by_cases he : e < expiry
    · have hq := hqs q (List.mem_cons_self q qs)
      simp [poll_loop, he, hq.1, hq.2]
      exact ih htail (e + interval) (by omega)
    · simp [poll_loop, he]

/-- Claim C4: for a run of N authorization_pending responses followed by
one 2xx success, all within the validity window, poll_for_token stores
the resulting Credential, returns success, and makes exactly N+1 HTTP
calls at interval spacing (call k at elapsed time k·interval); a
non-2xx response without authorization_pending is fatal with the
polling error; and an all-pending run outlasting the window yields the
distinct timed-out error. -/
theorem c4_poll_for_token_spec
    (st : OAuthState) (dc : DeviceCodeResponse) (start : Nat)
    (ps : List HttpResponse) (succ : HttpResponse) (tok : TokenResponse)
    (hps : ∀ p ∈ ps, isSuccessStatus p.status = false ∧
      strContains p.text "authorization_pending" = true)
    (hsucc : isSuccessStatus succ.status = true) (htok : succ.jsonToken = some tok)
    (hwin : ps.length * dc.interval < dc.expires_in) :
    poll_for_token st dc start (ps ++ [succ]) =
      ((.ok (), { st with token := some tok, token_obtained_at := some (start + ps.length * dc.interval) }),
        (List.range (ps.length + 1)).map (fun k => k * dc.interval)) ∧
    (∀ (r : HttpResponse) (rest : List HttpResponse),
      isSuccessStatus r.status = false →
      strContains r.text "authorization_pending" = false → 0 < dc.expires_in →
      (poll_for_token st dc start (r :: rest)).1.1 =
        .error ("Error polling for token: " ++ r.text)) ∧
    (∀ qs : List HttpResponse,
      (∀ q ∈ qs, isSuccessStatus q.status = false ∧
        strContains q.text "authorization_pending" = true) →
      dc.expires_in ≤ qs.length * dc.interval →
      (poll_for_token st dc start qs).1.1 = .error "Device code flow timed out") := by
  refine ⟨?_, ?_, ?_⟩
  · have hwin0 : 0 + ps.length * dc.interval < dc.expires_in := by simpa using hwin
    have hrun := poll_loop_pending_seq dc.expires_in dc.interval ps hps 0 [succ] hwin0
    have hinner : poll_loop dc.expires_in dc.interval (ps.length * dc.interval) [succ] =
        (.ok (tok, ps.length * dc.interval), [ps.length * dc.interval]) := by
      simp [poll_loop, hwin, hsucc, htok]
    rw [show poll_for_token st dc start (ps ++ [succ]) =
        ((.ok (), { st with token := some tok, token_obtained_at := some (start + ps.length * dc.interval) }),
          (List.range ps.length).map (fun k => k * dc.interval) ++
            [ps.length * dc.interval]) by
      simp [poll_for_token, hrun, hinner]]
    rw [List.range_succ, List.map_append]
    simp
  · intro r rest hfail hnp hpos
    simp [poll_for_token, poll_loop, hpos, hfail, hnp]
  · intro qs hqs hwin2
    have hto := poll_loop_timeout dc.expires_in dc.interval qs hqs 0 (by simpa using hwin2)
    simp [poll_for_token, hto]

/-- Claim C4, witness: two pending responses then a success inside a
1800 s window with a 5 s interval — three calls at times 0, 5, 10, and
the token is stored with obtained_at = start + 10. -/
theorem c4_poll_for_token_spec_witness :
    poll_for_token ⟨none, none⟩ ⟨"devcode", 1800, 5, "ABCD1234", "activate-uri"⟩ 1000
        [⟨400, "error: authorization_pending", none⟩,
         ⟨400, "error: authorization_pending", none⟩,
         ⟨200, "", some ⟨"acc", 14400, "ref", ["chat:read"], "bearer"⟩⟩] =
      ((.ok (), ⟨some ⟨"acc", 14400, "ref", ["chat:read"], "bearer"⟩, some 1010⟩),
        [0, 5, 10]) := by
  exact (c4_poll_for_token_spec ⟨none, none⟩ ⟨"devcode", 1800, 5, "ABCD1234", "activate-uri"⟩
    1000
    [⟨400, "error: authorization_pending", none⟩, ⟨400, "error: authorization_pending", none⟩]
    ⟨200, "", some ⟨"acc", 14400, "ref", ["chat:read"], "bearer"⟩⟩
    ⟨"acc", 14400, "ref", ["chat:read"], "bearer"⟩
    (by decide) (by decide) rfl (by decide)).1

/-- Claim C8: save followed by load reproduces an equivalent Credential —
for any held token, save_token serializes it, load_token on that
serialization succeeds, and the credential after the load has the same
access_token, refresh_token, scopes, expires_in and token_type. -/
theorem c8_save_load_round_trip
    (st st2 : OAuthState) (tok : TokenResponse) (now : Nat)
    (htok : st.token = some tok) :
    save_token st = .ok (token_to_json tok) ∧
    load_token (some (token_to_json tok)) st2 now =
      (.ok (), { st2 with token := some tok, token_obtained_at := some now }) ∧
    ∃ tok2, (load_token (some (token_to_json tok)) st2 now).2.token = some tok2 ∧
      tok2.access_token = tok.access_token ∧
      tok2.refresh_token = tok.refresh_token ∧
      tok2.scope = tok.scope ∧
      tok2.expires_in = tok.expires_in ∧
      tok2.token_type = tok.token_type := by
  refine ⟨?_, ?_, ?_⟩
  · simp [save_token, htok]
  · simp [load_token, token_from_to]
  · exact ⟨tok, by simp [load_token, token_from_to], rfl, rfl, rfl, rfl, rfl⟩

/-- Claim C8, witness: the round trip at a concrete credential. -/
theorem c8_save_load_round_trip_witness :
    save_token ⟨some ⟨"acc", 14400, "ref", ["chat:read", "chat:edit"], "bearer"⟩, some 3⟩ =
      .ok (token_to_json ⟨"acc", 14400, "ref", ["chat:read", "chat:edit"], "bearer"⟩) ∧
    load_token (some (token_to_json ⟨"acc", 14400, "ref", ["chat:read", "chat:edit"], "bearer"⟩))
        ⟨none, none⟩ 77 =
      (.ok (), ⟨some ⟨"acc", 14400, "ref", ["chat:read", "chat:edit"], "bearer"⟩, some 77⟩) ∧
    ∃ tok2,
      (load_token (some (token_to_json ⟨"acc", 14400, "ref", ["chat:read", "chat:edit"], "bearer"⟩))
        ⟨none, none⟩ 77).2.token = some tok2 ∧
      tok2.access_token = "acc" ∧ tok2.refresh_token = "ref" ∧
      tok2.scope = ["chat:read", "chat:edit"] ∧ tok2.expires_in = 14400 ∧
      tok2.token_type = "bearer" :=
  c8_save_load_round_trip
    ⟨some ⟨"acc", 14400, "ref", ["chat:read", "chat:edit"], "bearer"⟩, some 3⟩
    ⟨none, none⟩ ⟨"acc", 14400, "ref", ["chat:read", "chat:edit"], "bearer"⟩ 77 rfl

/-- Claim C10: load_token stamps the credential with the load time, not
the original acquisition time — whatever JSON parses to a token, the
post-load state carries obtained_at = time of the load, and a
get_access_token call any time within the full (margin-adjusted)
expires_in window counted from the load returns the loaded access token
with no refresh and no state change. -/
theorem c10_load_resets_obtained_at
    (j : Json) (tok : TokenResponse) (st : OAuthState) (now now2 : Nat)
    (hj : token_from_json j = some tok)
    (hfresh : now2 - now ≤ tok.expires_in - 600) :
    (load_token (some j) st now).2.token_obtained_at = some now ∧
    (load_token (some j) st now).2.token = some tok ∧
    ∀ resp, get_access_token ((load_token (some j) st now).2) resp now2 =
      (.ok tok.access_token, (load_token (some j) st now).2) := by
  refine ⟨by simp [load_token, hj], by simp [load_token, hj], ?_⟩
  intro resp
  simp [load_token, hj, get_access_token, Nat.not_lt.mpr hfresh]

/-- Claim C10, witness: a token persisted long ago (its original
obtained_at is not even part of the file) is loaded at t = 5000 and is
still served unrefreshed at t = 7000, 2000 s after the load. -/
theorem c10_load_resets_obtained_at_witness :
    (load_token (some (token_to_json ⟨"acc", 14400, "ref", ["chat:read"], "bearer"⟩))
        ⟨none, none⟩ 5000).2.token_obtained_at = some 5000 ∧
    (load_token (some (token_to_json ⟨"acc", 14400, "ref", ["chat:read"], "bearer"⟩))
        ⟨none, none⟩ 5000).2.token = some ⟨"acc", 14400, "ref", ["chat:read"], "bearer"⟩ ∧
    ∀ resp, get_access_token
        ((load_token (some (token_to_json ⟨"acc", 14400, "ref", ["chat:read"], "bearer"⟩))
          ⟨none, none⟩ 5000).2) resp 7000 =
      (.ok "acc",
        (load_token (some (token_to_json ⟨"acc", 14400, "ref", ["chat:read"], "bearer"⟩))
          ⟨none, none⟩ 5000).2) :=
  c10_load_resets_obtained_at
    (token_to_json ⟨"acc", 14400, "ref", ["chat:read"], "bearer"⟩)
    ⟨"acc", 14400, "ref", ["chat:read"], "bearer"⟩ ⟨none, none⟩ 5000 7000
    (token_from_to ⟨"acc", 14400, "ref", ["chat:read"], "bearer"⟩) (by decide)

/-- Drop leading '#' characters (Rust `trim_start_matches('#')`). -/
def dropLeadingHash : List Char → List Char
  | [] => []
  | c :: cs => if c == '#' then dropLeadingHash cs else c :: cs

/-- ASCII lowercase of one character (channel logins are ASCII, so this
matches Rust's to_lowercase on them). -/
def charToLower (c : Char) : Char :=
  if 65 ≤ c.toNat ∧ c.toNat ≤ 90 then Char.ofNat (c.toNat + 32) else c

/-- Channel-name normalization done by client.rs before every transport
call: if the name starts with '#', strip the leading '#'s
(trim_start_matches) and lowercase; otherwise just lowercase. -/
def normalize_channel (channel : String) : String :=
  match channel.data with
  | '#' :: _ => String.mk ((dropLeadingHash channel.data).map charToLower)
  | _ => String.mk (channel.data.map charToLower)

/-- An observable transport call made by the delivery client: an IRC
join, an IRC say, a token refresh (recreate_client, which fetches a
fresh token and rebuilds the IRC client), or a Helix REST send. -/
inductive ChatCall where
  | ircJoin (channel : String)
  | ircSay (channel message : String)
  | tokenRefresh
  | helixSend (channel message : String)
deriving DecidableEq, Repr

/-- The outcomes the environment hands TwitchClient::send_message: the
first IRC say, recreate_client, the post-refresh IRC retry, and the
Helix REST send (whose Ok carries the message id). -/
structure SendEnv where
  firstSay : Except String Unit
  recreate : Except String Unit
  retrySay : Except String Unit
  helixSend : Except String String

/-- The Helix fallback tail of TwitchClient::send_message: one REST send
whose success yields Ok(()) and whose failure is wrapped as
"Failed to send message: ...". `pre` is the trace accumulated so far. -/
def helix_fallback (channel_name message : String) (env : SendEnv)
    (pre : List ChatCall) : Except String Unit × List ChatCall :=
  match env.helixSend with
  | .ok _ => (.ok (), pre ++ [.helixSend channel_name message])
  | .error e => (.error ("Failed to send message: " ++ e), pre ++ [.helixSend channel_name message])

/-- TwitchClient::send_message: normalize the channel, try IRC say; on
success return; on an authentication-flavored failure run
recreate_client — if it succeeds retry IRC once and return on success —
and in every remaining case fall through to the Helix REST send.
Returns the Result together with the trace of transport calls made. -/
def send_message (channel message : String) (env : SendEnv) :
    Except String Unit × List ChatCall :=
  let channel_name := normalize_channel channel
  match env.firstSay with
  | .ok _ => (.ok (), [.ircSay channel_name message])
  | .error e =>
    if strContains e "authentication" then
      match env.recreate with
      | .error _ =>
        helix_fallback channel_name message env
          [.ircSay channel_name message, .tokenRefresh]
      | .ok _ =>
        match env.retrySay with
        | .ok _ =>
          (.ok (), [.ircSay channel_name message, .tokenRefresh, .ircSay channel_name message])
        | .error _ =>
          helix_fallback channel_name message env
            [.ircSay channel_name message, .tokenRefresh, .ircSay channel_name message]
    else helix_fallback channel_name message env [.ircSay channel_name message]

/-- The outcomes the environment hands TwitchClient::join_channel: the
first IRC join, recreate_client, and the post-refresh join retry. -/
structure JoinEnv where
  firstJoin : Except String Unit
  recreate : Except String Unit
  retryJoin : Except String Unit

/-- TwitchClient::join_channel: normalize the channel, attempt the IRC
join; a non-authentication failure is only logged (Ok is returned); an
authentication-flavored failure triggers recreate_client — whose own
failure propagates via "?" — followed by one retried join whose outcome
is logged but never returned. Returns the Result and the call trace. -/
def join_channel (channel : String) (env : JoinEnv) :
    Except String Unit × List ChatCall :=
  let channel_name := normalize_channel channel
  match env.firstJoin with
  | .ok _ => (.ok (), [.ircJoin channel_name])
  | .error e =>
    if strContains e "authentication" then
      match env.recreate with
      | .error re => (.error re, [.ircJoin channel_name, .tokenRefresh])
      | .ok _ => (.ok (), [.ircJoin channel_name, .tokenRefresh, .ircJoin channel_name])
    else (.ok (), [.ircJoin channel_name])

/-- Claim C2, counterexample. A streaming send fails with an
authentication-flavored error and the token refresh itself fails: the
code then falls through to the Helix REST send without ever retrying
the streaming send — the trace holds a single ircSay before the
helixSend, contradicting "the single streaming retry is always
attempted before any REST fallback on the authentication branch". -/
theorem c2_counterexample :
    send_message "chan" "hello"
        ⟨.error "login authentication failed", .error "refresh rejected", .ok (), .ok "msgid"⟩ =
      (.ok (), [.ircSay "chan" "hello", .tokenRefresh, .helixSend "chan" "hello"]) := by
  rfl

/-- Claim C2, amended: on an authentication-flavored streaming failure
the client refreshes the token; if the refresh succeeds it retries the
streaming send exactly once and falls back to REST only if that retry
also fails; if the refresh itself fails, it skips the retry and falls
back to REST directly. -/
theorem c2_send_message_auth_retry
    (channel message e : String) (env : SendEnv)
    (h1 : env.firstSay = .error e) (h2 : strContains e "authentication" = true) :
    (env.recreate = .ok () → env.retrySay = .ok () →
      send_message channel message env =
        (.ok (), [.ircSay (normalize_channel channel) message, .tokenRefresh,
          .ircSay (normalize_channel channel) message])) ∧
    (env.recreate = .ok () → ∀ re, env.retrySay = .error re →
      send_message channel message env =
        (match env.helixSend with
          | .ok _ => .ok ()
          | .error he => .error ("Failed to send message: " ++ he),
         [.ircSay (normalize_channel channel) message, .tokenRefresh,
          .ircSay (normalize_channel channel) message,
          .helixSend (normalize_channel channel) message])) ∧
    (∀ re, env.recreate = .error re →
      send_message channel message env =
        (match env.helixSend with
          | .ok _ => .ok ()
          | .error he => .error ("Failed to send message: " ++ he),
         [.ircSay (normalize_channel channel) message, .tokenRefresh,
          .helixSend (normalize_channel channel) message])) := by
  obtain ⟨f, rc, rt, hx⟩ := env
  simp only at h1
  subst h1
  refine ⟨?_, ?_, ?_⟩
  · intro hrc hrt
    simp only at hrc hrt
    subst hrc; subst hrt
    simp [send_message, h2]
  · intro hrc re hrt
    simp only at hrc hrt
    subst hrc; subst hrt
    rcases hx with mid | he
    · simp [send_message, helix_fallback, h2]
    · simp [send_message, helix_fallback, h2]
  · intro re hrc
    simp only at hrc
    subst hrc
    rcases hx with mid | he
    · simp [send_message, helix_fallback, h2]
    · simp [send_message, helix_fallback, h2]

/-- Claim C2, witness: the refresh-succeeds, retry-succeeds branch at a
concrete environment. -/
theorem c2_send_message_auth_retry_witness :
    send_message "chan" "hello"
        ⟨.error "login authentication failed", .ok (), .ok (), .ok "msgid"⟩ =
      (.ok (), [.ircSay "chan" "hello", .tokenRefresh, .ircSay "chan" "hello"]) :=
  (c2_send_message_auth_retry "chan" "hello" "login authentication failed"
    ⟨.error "login authentication failed", .ok (), .ok (), .ok "msgid"⟩
    rfl (by decide)).1 rfl rfl

/-- Claim C6: a streaming send failure whose text does not indicate an
authentication problem triggers no token refresh; the Helix REST path
is invoked exactly once and its result (success, or its error wrapped
as "Failed to send message: ...") is returned. -/
theorem c6_send_message_nonauth_rest_once
    (channel message e : String) (env : SendEnv)
    (h1 : env.firstSay = .error e) (h2 : strContains e "authentication" = false) :
    send_message channel message env =
      (match env.helixSend with
        | .ok _ => .ok ()
        | .error he => .error ("Failed to send message: " ++ he),
       [.ircSay (normalize_channel channel) message,
        .helixSend (normalize_channel channel) message]) := by
  obtain ⟨f, rc, rt, hx⟩ := env
  simp only at h1
  subst h1
  rcases hx with mid | he
  · simp [send_message, helix_fallback, h2]
  · simp [send_message, helix_fallback, h2]

/-- Claim C6, witness: a connection-reset streaming failure at a
concrete environment falls through to one successful REST send. -/
theorem c6_send_message_nonauth_rest_once_witness :
    send_message "chan" "hello"
        ⟨.error "connection reset by peer", .ok (), .ok (), .ok "msgid"⟩ =
      (.ok (), [.ircSay "chan" "hello", .helixSend "chan" "hello"]) :=
  c6_send_message_nonauth_rest_once "chan" "hello" "connection reset by peer"
    ⟨.error "connection reset by peer", .ok (), .ok (), .ok "msgid"⟩ rfl (by decide)

/-- Claim C5, counterexample. The first join fails with an
authentication-flavored error and the token refresh performed for the
retry fails: join_channel propagates that refresh error to the caller
instead of returning success, contradicting "join_channel returns
success regardless of streaming-join failure, including when the token
refresh performed for the retry itself fails". -/
theorem c5_counterexample :
    (join_channel "Chan"
        ⟨.error "login authentication failed", .error "refresh broke", .ok ()⟩).1 =
      .error "refresh broke" := by
  rfl

/-- Claim C5, amended: every streaming-join failure — the initial
attempt or the single post-refresh retry — is logged and not returned
(join_channel returns success), with one exception: when the token
refresh performed for the retry itself fails, that error is returned to
the caller. -/
theorem c5_join_channel_nonfatal
    (channel : String) (env : JoinEnv) :
    (env.firstJoin = .ok () →
      join_channel channel env = (.ok (), [.ircJoin (normalize_channel channel)])) ∧
    (∀ e, env.firstJoin = .error e → strContains e "authentication" = false →
      join_channel channel env = (.ok (), [.ircJoin (normalize_channel channel)])) ∧
    (∀ e, env.firstJoin = .error e → strContains e "authentication" = true →
      env.recreate = .ok () →
      join_channel channel env =
        (.ok (), [.ircJoin (normalize_channel channel), .tokenRefresh,
          .ircJoin (normalize_channel channel)])) ∧
    (∀ e re, env.firstJoin = .error e → strContains e "authentication" = true →
      env.recreate = .error re →
      join_channel channel env =
        (.error re, [.ircJoin (normalize_channel channel), .tokenRefresh])) := by
  obtain ⟨f, rc, rt⟩ := env
  refine ⟨?_, ?_, ?_, ?_⟩
  · intro h
    simp only at h
    subst h
    simp [join_channel]
  · intro e h hna
    simp only at h
    subst h
    simp [join_channel, hna]
  · intro e h ha hrc
    simp only at h hrc
    subst h; subst hrc
    simp [join_channel, ha]
  · intro e re h ha hrc
    simp only at h hrc
    subst h; subst hrc
    simp [join_channel, ha]

/-- Claim C5, witness: the degraded-mode branch — an authentication
failure on join followed by a successful refresh and a retried join —
at a concrete environment, returning success. -/
theorem c5_join_channel_nonfatal_witness :
    join_channel "#BigChannel"
        ⟨.error "login authentication failed", .ok (), .error "still refused"⟩ =
      (.ok (), [.ircJoin "bigchannel", .tokenRefresh, .ircJoin "bigchannel"]) :=
  (c5_join_channel_nonfatal "#BigChannel"
    ⟨.error "login authentication failed", .ok (), .error "still refused"⟩).2.2.1
    "login authentication failed" rfl (by decide) rfl

/-- One user record of helix.rs's UserResponse payload. -/
structure UserData where
  id : String
  login : String
  display_name : String
deriving DecidableEq, Repr

/-- The /helix/users response payload. -/
structure UserResponse where
  data : List UserData
deriving DecidableEq, Repr

/-- An HTTP response of the users endpoint: status, raw body text, and
the parse of the body as UserResponse (`none` = parse failure). -/
structure UsersHttpResponse where
  status : Nat
  text : String
  jsonUsers : Option UserResponse
deriving DecidableEq, Repr

/-- The mutable state of helix.rs's HelixChatClient: the cached bot user
id and the login → id channel cache (HashMap modelled as an association
list where insertion prepends, so lookup finds the latest entry). -/
structure HelixState where
  bot_user_id : Option String
  channel_cache : List (String × String)
deriving DecidableEq, Repr

/-- What the environment hands one users-endpoint lookup: the outcome of
the get_access_token call and the HTTP response (`none` = send()
failed). -/
structure LookupEnv where
  tokenRes : Except String String
  resp : Option UsersHttpResponse

/-- HelixChatClient::get_bot_user_id — cached value if available,
otherwise one GET /helix/users; an empty data array is the
"No user data returned" error and caches nothing. Returns the result,
the post-call state, and the number of HTTP calls made. -/
def get_bot_user_id (st : HelixState) (env : LookupEnv) :
    Except String String × HelixState × Nat :=
  match st.bot_user_id with
  | some id => (.ok id, st, 0)
  | none =>
    match env.tokenRes with
    | .error e => (.error e, st, 0)
    | .ok _ =>
      match env.resp with
      | none => (.error "transport error", st, 1)
      | some r =>
        if isSuccessStatus r.status then
          match r.jsonUsers with
          | none => (.error "invalid users json", st, 1)
          | some users =>
            match users.data with
            | [] => (.error "No user data returned", st, 1)
            | u :: _ => (.ok u.id, { st with bot_user_id := some u.id }, 1)
        else (.error ("Failed to get user ID: " ++ r.text), st, 1)

/-- HelixChatClient::get_broadcaster_id — cached id if present,
otherwise one GET /helix/users?login=username; the first returned user
is cached and returned; an empty data array is the
"No user data found for ..." error and caches nothing. Returns the
result, the post-call state, and the number of HTTP calls made. -/
def get_broadcaster_id (st : HelixState) (username : String) (env : LookupEnv) :
    Except String String × HelixState × Nat :=
  match List.lookup username st.channel_cache with
  | some id => (.ok id, st, 0)
  | none =>
    match env.tokenRes with
    | .error e => (.error e, st, 0)
    | .ok _ =>
      match env.resp with
      | none => (.error "transport error", st, 1)
      | some r =>
        if isSuccessStatus r.status then
          match r.jsonUsers with
          | none => (.error "invalid users json", st, 1)
          | some users =>
            match users.data with
            | [] => (.error ("No user data found for " ++ username), st, 1)
            | u :: _ =>
              (.ok u.id, { st with channel_cache := (username, u.id) :: st.channel_cache }, 1)
        else (.error ("Failed to get broadcaster ID: " ++ r.text), st, 1)

/-- The drop_reason payload of a Helix send response. -/
structure DropReason where
  code : String
  message : String
deriving DecidableEq, Repr

/-- One message record of the Helix send response payload. -/
structure MessageData where
  message_id : String
  is_sent : Bool
  drop_reason : Option DropReason
deriving DecidableEq, Repr

/-- The POST /helix/chat/messages response payload. -/
structure SendMessageResponse where
  data : List MessageData
deriving DecidableEq, Repr

/-- The POST body helix.rs builds for a send (struct SendMessageRequest). -/
structure SendMessageRequest where
  broadcaster_id : String
  sender_id : String
  message : String
  reply_parent_message_id : Option String
deriving DecidableEq, Repr

/-- An HTTP response of the chat/messages endpoint: status, raw body
text, and the parse of the body as SendMessageResponse. -/
structure SendHttpResponse where
  status : Nat
  text : String
  jsonSend : Option SendMessageResponse
deriving DecidableEq, Repr

/-- What the environment hands one send_chat_message call: outcomes for
the two id lookups, the token fetch, and the send POST itself. -/
structure SendChatEnv where
  botLookup : LookupEnv
  chanLookup : LookupEnv
  tokenRes : Except String String
  resp : Option SendHttpResponse

/-- HelixChatClient::send_chat_message — resolve the bot id and the
broadcaster id, fetch a token, POST the structured body; a non-2xx
response fails with the body text; a 2xx response is further inspected:
empty data fails, and a record with is_sent = false fails with
"Message not sent: code - message" when a drop_reason is present (or
the unknown-reason error otherwise); only is_sent = true yields the
message id. Returns the result with the post-call client state. -/
def send_chat_message (st : HelixState) (channel message : String)
    (reply_to : Option String) (env : SendChatEnv) :
    Except String String × HelixState :=
  match get_bot_user_id st env.botLookup with
  | (.error e, st1, _) => (.error e, st1)
  | (.ok bot_user_id, st1, _) =>
    match get_broadcaster_id st1 channel env.chanLookup with
    | (.error e, st2, _) => (.error e, st2)
    | (.ok broadcaster_id, st2, _) =>
      match env.tokenRes with
      | .error e => (.error e, st2)
      | .ok _ =>
        let _request_body : SendMessageRequest :=
          ⟨broadcaster_id, bot_user_id, message, reply_to⟩
        match env.resp with
        | none => (.error "transport error", st2)
        | some r =>
          if isSuccessStatus r.status then
            match r.jsonSend with
            | none => (.error "invalid send json", st2)
            | some sr =>
              match sr.data with
              | [] => (.error "No data returned from send message API", st2)
              | md :: _ =>
                if md.is_sent then (.ok md.message_id, st2)
                else
                  match md.drop_reason with
                  | some reason =>
                    (.error ("Message not sent: " ++ reason.code ++ " - " ++ reason.message), st2)
                  | none => (.error "Message not sent for unknown reason", st2)
          else (.error ("Failed to send message: " ++ r.text), st2)

/-- Claim C9: with no cache entry for the login, a successful lookup
issues exactly one HTTP call, returns the first user's id and caches
it; the second call for the same login is served from the cache with
zero HTTP calls and returns the same id; and a lookup whose response
carries an empty data array fails with the unknown-user error and
caches nothing (the state is unchanged). -/
theorem c9_get_broadcaster_id_cached
    (st : HelixState) (username : String) (env : LookupEnv)
    (tk : String) (r : UsersHttpResponse) (u : UserData) (us : List UserData)
    (hmiss : List.lookup username st.channel_cache = none)
    (htk : env.tokenRes = .ok tk) (hr : env.resp = some r)
    (hst : isSuccessStatus r.status = true)
    (hu : r.jsonUsers = some ⟨u :: us⟩) :
    get_broadcaster_id st username env =
      (.ok u.id, { st with channel_cache := (username, u.id) :: st.channel_cache }, 1) ∧
    (∀ env2 : LookupEnv,
      get_broadcaster_id { st with channel_cache := (username, u.id) :: st.channel_cache }
          username env2 =
        (.ok u.id, { st with channel_cache := (username, u.id) :: st.channel_cache }, 0)) ∧
    (∀ (st3 : HelixState) (env3 : LookupEnv) (tk3 : String) (r3 : UsersHttpResponse),
      List.lookup username st3.channel_cache = none →
      env3.tokenRes = .ok tk3 → env3.resp = some r3 →
      isSuccessStatus r3.status = true → r3.jsonUsers = some ⟨[]⟩ →
      get_broadcaster_id st3 username env3 =
        (.error ("No user data found for " ++ username), st3, 1)) := by
  refine ⟨?_, ?_, ?_⟩
  · simp [get_broadcaster_id, hmiss, htk, hr, hst, hu]
  · intro env2
    simp [get_broadcaster_id, List.lookup]
  · intro st3 env3 tk3 r3 hmiss3 htk3 hr3 hst3 hu3
    simp [get_broadcaster_id, hmiss3, htk3, hr3, hst3, hu3]

/-- Claim C9, witness: resolving "alice" twice — the first call issues
one HTTP lookup and caches id "123", the second is served from the
cache with zero HTTP calls. -/
theorem c9_get_broadcaster_id_cached_witness :
    get_broadcaster_id ⟨none, []⟩ "alice"
        ⟨.ok "tok", some ⟨200, "", some ⟨[⟨"123", "alice", "Alice"⟩]⟩⟩⟩ =
      (.ok "123", ⟨none, [("alice", "123")]⟩, 1) ∧
    get_broadcaster_id ⟨none, [("alice", "123")]⟩ "alice"
        ⟨.error "no token", none⟩ =
      (.ok "123", ⟨none, [("alice", "123")]⟩, 0) := by
  have h := c9_get_broadcaster_id_cached ⟨none, []⟩ "alice"
    ⟨.ok "tok", some ⟨200, "", some ⟨[⟨"123", "alice", "Alice"⟩]⟩⟩⟩
    "tok" ⟨200, "", some ⟨[⟨"123", "alice", "Alice"⟩]⟩⟩ ⟨"123", "alice", "Alice"⟩ []
    rfl rfl rfl (by decide) rfl
  exact ⟨h.1, h.2.1 ⟨.error "no token", none⟩⟩

/-- Claim C7: a REST send whose HTTP response is 2xx but whose first
message record has is_sent = false and a drop_reason fails with the
"Message not sent: code - message" error carrying both the reason code
and its message text, despite the successful HTTP status. -/
theorem c7_send_chat_message_dropped
    (st : HelixState) (bid cid channel message : String) (reply_to : Option String)
    (env : SendChatEnv) (tk mid code msg : String) (r : SendHttpResponse)
    (hbot : st.bot_user_id = some bid)
    (hcache : List.lookup channel st.channel_cache = some cid)
    (htk : env.tokenRes = .ok tk) (hr : env.resp = some r)
    (hst : isSuccessStatus r.status = true)
    (hjson : r.jsonSend = some ⟨[⟨mid, false, some ⟨code, msg⟩⟩]⟩) :
    send_chat_message st channel message reply_to env =
      (.error ("Message not sent: " ++ code ++ " - " ++ msg), st) := by
  simp [send_chat_message, get_bot_user_id, get_broadcaster_id,
    hbot, hcache, htk, hr, hst, hjson]

/-- Claim C7, witness: the spec's scenario — HTTP 200, is_sent false,
drop_reason code "channel_banned" / message "bot is banned" — surfaces
as the error carrying both fields. -/
theorem c7_send_chat_message_dropped_witness :
    send_chat_message ⟨some "42", [("chan", "99")]⟩ "chan" "hello" none
        ⟨⟨.ok "tok", none⟩, ⟨.ok "tok", none⟩, .ok "tok",
          some ⟨200, "", some ⟨[⟨"m1", false, some ⟨"channel_banned", "bot is banned"⟩⟩]⟩⟩⟩ =
      (.error ("Message not sent: " ++ "channel_banned" ++ " - " ++ "bot is banned"),
        ⟨some "42", [("chan", "99")]⟩) :=
  c7_send_chat_message_dropped ⟨some "42", [("chan", "99")]⟩ "42" "99" "chan" "hello" none
    ⟨⟨.ok "tok", none⟩, ⟨.ok "tok", none⟩, .ok "tok",
      some ⟨200, "", some ⟨[⟨"m1", false, some ⟨"channel_banned", "bot is banned"⟩⟩]⟩⟩⟩
    "tok" "m1" "channel_banned" "bot is banned"
    ⟨200, "", some ⟨[⟨"m1", false, some ⟨"channel_banned", "bot is banned"⟩⟩]⟩⟩
    rfl rfl rfl rfl (by decide) rfl
